import Mathlib

/-!
Verification development for the mcbot_assistant repository.

The repository contains two Python files:
  * `src/main.py`  — a Matrix chat bot relaying messages to an Ollama
    inference server, with per-room chat history and slash-command dispatch;
  * `src/mcbot.py` — a one-shot Matrix direct-message bootstrap utility with
    a persisted JSON state file.

This file gives a shallow embedding of the data model and the operations of
both programs and proves (or refutes) the frozen claims about them.
Python dictionaries are embedded as insertion-ordered association lists,
outbound platform calls as an explicit effect trace, and the fallible
inference call as an explicit outcome parameter.
-/

/-- Outcome of a Python computation: a normal return value or a raised
exception carried as a description string. -/
inductive PyOutcome (α : Type) where
  | ok (a : α)
  | raised (exn : String)
deriving DecidableEq, Repr

/-- A chat message, mirroring the Python dicts with keys role and content
that `main.py` appends to `CHAT_HISTORY[room_id]`. -/
structure Message where
  role : String
  content : String
deriving DecidableEq, Repr

def userMsg (s : String) : Message := { role := "user", content := s }

def assistantMsg (s : String) : Message := { role := "assistant", content := s }

/-- Lookup in an insertion-ordered association list, embedding Python
dict membership and indexing (`k in d`, `d[k]`). -/
def dictFind? {α : Type} : List (String × α) → String → Option α
  | [], _ => none
  | (k0, v0) :: rest, k => if k0 = k then some v0 else dictFind? rest k

/-- Update in an insertion-ordered association list, embedding Python dict
assignment `d[k] = v`: an existing key is overwritten in place, a new key is
appended at the end. -/
def dictSet {α : Type} : List (String × α) → String → α → List (String × α)
  | [], k, v => [(k, v)]
  | (k0, v0) :: rest, k, v =>
      if k0 = k then (k, v) :: rest else (k0, v0) :: dictSet rest k v

theorem dictFind?_dictSet_self {α : Type} (m : List (String × α)) (k : String) (v : α) :
    dictFind? (dictSet m k v) k = some v := by
  induction m with
  | nil => simp [dictSet, dictFind?]
  | cons hd tl ih =>
      obtain ⟨k0, v0⟩ := hd
      by_cases h : k0 = k <;> simp [dictSet, dictFind?, h, ih]

theorem dictFind?_dictSet_ne {α : Type} (m : List (String × α)) (k k' : String) (v : α)
    (h : k' ≠ k) : dictFind? (dictSet m k v) k' = dictFind? m k' := by
  induction m with
  | nil => simp [dictSet, dictFind?, Ne.symm h]
  | cons hd tl ih =>
      obtain ⟨k0, v0⟩ := hd
      by_cases h0 : k0 = k
      · subst h0
        simp [dictSet, dictFind?, Ne.symm h]
      · by_cases h1 : k0 = k' <;> simp [dictSet, dictFind?, h0, h1, h, ih]

/-- The chat history storage of `main.py`: room id mapped to the ordered
list of messages (`CHAT_HISTORY`). -/
abbrev HistoryMap := List (String × List Message)

/-- The configuration record of `main.py` (`DEFAULT_CONFIG` keys). -/
structure BotConfig where
  matrix_password : String
  matrix_user_id : String
  matrix_homeserver : String
  ollama_url : String
  model : String
deriving DecidableEq, Repr

/-- The built-in defaults of `main.py` (`DEFAULT_CONFIG`); the password
default comes from the MATRIX_PASSWORD environment variable, passed here as
a parameter. -/
def DEFAULT_CONFIG (envPassword : String) : BotConfig :=
  { matrix_password := envPassword
    matrix_user_id := "autobot_1981:matrix.org"
    matrix_homeserver := "https://matrix.org"
    ollama_url := "http://llm.fritz.box:11434"
    model := "qwen2.5-coder:7b" }

/-- Embedding of `load_config` in `main.py`, as a function of the content of
the file `bot.conf` (`none` when the file does not exist). The module
`main.py` never imports `json`, so when the file exists the expression
`json.load(f)` raises `NameError`; evaluating the first except clause
`except json.JSONDecodeError` then raises `NameError` again, which
propagates out of the function before any parsing, INI fallback or default
merging can happen. When the file is absent, the copied defaults are
returned unchanged. -/
def load_config (envPassword : String) (botConfFile : Option String) :
    PyOutcome BotConfig :=
  match botConfFile with
  | none => .ok (DEFAULT_CONFIG envPassword)
  | some _ => .raised "NameError: name \x27json\x27 is not defined"

/-- Observable outbound operations performed by the bot, in call order.
`roomTyping` is the typing-indicator operation the Matrix SDK offers; it is
part of the vocabulary so that its absence from a trace can be stated. -/
inductive Effect where
  | roomSend (room_id : String) (body : String)
  | roomRedact (room_id : String) (event_id : Nat)
  | roomTyping (room_id : String)
  | logError (msg : String)
deriving DecidableEq, Repr

def thinkingBody : String := "Thinking..."

def apologyBody : String := "Sorry, I\x27m having trouble connecting to my brain right now."

def startBody : String := "I\x27m a bot, please talk to me!"

def helpBody : String := "Use /start to begin, /reset to clear history."

def resetBody : String := "Chat context has been reset."

/-- Result of one inbound-event step: the updated history map together with
the trace of outbound operations, in call order. -/
structure StepResult where
  history : HistoryMap
  effects : List Effect
deriving DecidableEq, Repr

/-- Embedding of `start` in `main.py`: send the greeting, touch nothing. -/
def start (hist : HistoryMap) (room_id : String) : StepResult :=
  { history := hist, effects := [.roomSend room_id startBody] }

/-- Embedding of `help_command` in `main.py`. -/
def help_command (hist : HistoryMap) (room_id : String) : StepResult :=
  { history := hist, effects := [.roomSend room_id helpBody] }

/-- Embedding of `reset_command` in `main.py`: if the room has a history
entry it is set to the empty list (the key stays present); a room without an
entry is left alone. The acknowledgement is sent in either case. -/
def reset_command (hist : HistoryMap) (room_id : String) : StepResult :=
  { history :=
      match dictFind? hist room_id with
      | some _ => dictSet hist room_id []
      | none => hist
    effects := [.roomSend room_id resetBody] }

/-- Embedding of `handle_message` in `main.py`. The inference call is the
parameter `infer`, applied to the configured server url, the configured
model name and the full ordered history including the just-appended user
message. In the source the lazy entry initialization followed by the list
append leaves `CHAT_HISTORY[room_id]` equal to its previous value (empty
when absent) with the user message appended, which is written here as one
`dictSet`. On success the assistant reply is appended and the placeholder is
replaced by redact-and-resend; on any exception the error is logged, the
placeholder is replaced by the fixed apology, and no assistant message is
appended (the user message stays). -/
def handle_message (cfg : BotConfig)
    (infer : String → String → List Message → PyOutcome String)
    (hist : HistoryMap) (room_id user_text : String)
    (thinking_event_id : Nat) : StepResult :=
  let cur := (dictFind? hist room_id).getD []
  let curUser := cur ++ [userMsg user_text]
  let hist2 := dictSet hist room_id curUser
  match infer cfg.ollama_url cfg.model curUser with
  | .ok response_text =>
      { history := dictSet hist2 room_id (curUser ++ [assistantMsg response_text])
        effects :=
          [.roomSend room_id thinkingBody,
           .roomRedact room_id thinking_event_id,
           .roomSend room_id response_text] }
  | .raised e =>
      { history := hist2
        effects :=
          [.roomSend room_id thinkingBody,
           .logError ("Error calling Ollama: " ++ e),
           .roomRedact room_id thinking_event_id,
           .roomSend room_id apologyBody] }

/-- Embedding of the Python test `s.startswith(p)`: the character sequence
of `p` is a literal, case-sensitive prefix of the character sequence of
`s`. -/
def py_startswith (s p : String) : Bool :=
  p.data.isPrefixOf s.data

/-- Embedding of `message_callback` in `main.py`: events from the bot itself
are dropped; otherwise the body is dispatched by literal, case-sensitive
prefix tests in source order, and everything that matches none of them is
relayed verbatim. -/
def message_callback (cfg : BotConfig)
    (infer : String → String → List Message → PyOutcome String)
    (bot_user_id : String) (hist : HistoryMap)
    (room_id sender body : String) (thinking_event_id : Nat) : StepResult :=
  if sender = bot_user_id then { history := hist, effects := [] }
  else if py_startswith body "/start" then start hist room_id
  else if py_startswith body "/help" then help_command hist room_id
  else if py_startswith body "/reset" then reset_command hist room_id
  else handle_message cfg infer hist room_id body thinking_event_id

/-- An inference client that always succeeds with the fixed reply `r`. -/
def okInfer (r : String) : String → String → List Message → PyOutcome String :=
  fun _ _ _ => .ok r

/-- An inference client that always raises, with `e` as the exception text
(for example an unreachable-host error). -/
def failInfer (e : String) : String → String → List Message → PyOutcome String :=
  fun _ _ _ => .raised e

/-- What one inference outcome contributes to the history after the user
message: the assistant reply on success, nothing on failure. -/
def assistantSuffix : PyOutcome String → List Message
  | .ok r => [assistantMsg r]
  | .raised _ => []

/-- Iterate `handle_message` over a list of turns for one room, every turn
with a succeeding inference call returning the paired reply. -/
def runSuccTurns (cfg : BotConfig) (room_id : String) :
    HistoryMap → List (String × String) → HistoryMap
  | hist, [] => hist
  | hist, (u, r) :: rest =>
      runSuccTurns cfg room_id
        (handle_message cfg (okInfer r) hist room_id u 0).history rest

/-- The history a list of successful turns should produce: for each turn the
user message followed by the assistant reply, in call order. -/
def turnMsgs : List (String × String) → List Message
  | [] => []
  | (u, r) :: rest => userMsg u :: assistantMsg r :: turnMsgs rest

/-- Outcome of program startup up to the login call: stop deliberately
before login after printing the given diagnostic and ending with the given
process exit status; die from an exception that no handler catches (the
interpreter prints a traceback, not a program diagnostic, and the process
exit status is the non-zero 1); or go on to connect and log in. -/
inductive StartOutcome where
  | earlyExit (diagnostic : String) (exitCode : Nat)
  | uncaughtKeyError (key : String)
  | proceedToLogin
deriving DecidableEq, Repr

def placeholderPassword : String := "your_matrix_password_here"

/-- Embedding of the credential check at the top of `main` in `main.py`:
an empty or placeholder password prints a diagnostic and calls `exit(1)`
before the Matrix client logs in. -/
def main_password_gate (password : String) : StartOutcome :=
  if password = "" ∨ password = placeholderPassword then
    .earlyExit "Error: Matrix password not found in bot.conf or environment variable." 1
  else .proceedToLogin

/-- The persisted JSON state object of `mcbot.py`, as an ordered key-value
object; the same shape serves for its parsed `bot.conf` dict, since the
`load_config` of `mcbot.py` returns the parsed JSON object as is. -/
abbrev StateObj := List (String × String)

/-- Embedding of the start of `main` in `mcbot.py` up to the login call,
as a function of the config dict its `load_config` returned (that function
applies no defaults, and yields an empty dict when `bot.conf` is missing or
unreadable). The subscript reads `cfg[matrix_homeserver]`,
`cfg[matrix_user_id]`, `cfg[matrix_password]` run in source order before any
client use and outside every try block, so an absent key raises an uncaught
`KeyError` naming that key, ending the process with a traceback and exit
status 1 and without the program diagnostic. Only when all three keys exist
does the credential check run: an empty or placeholder password prints the
diagnostic, closes the client and returns normally, so the process ends with
exit status 0, still before any login. -/
def mcbot_main_gate (cfg : StateObj) : StartOutcome :=
  match dictFind? cfg "matrix_homeserver" with
  | none => .uncaughtKeyError "matrix_homeserver"
  | some _ =>
    match dictFind? cfg "matrix_user_id" with
    | none => .uncaughtKeyError "matrix_user_id"
    | some _ =>
      match dictFind? cfg "matrix_password" with
      | none => .uncaughtKeyError "matrix_password"
      | some password =>
        if password = "" ∨ password = placeholderPassword then
          .earlyExit "Error: Matrix password not found in bot.conf." 0
        else .proceedToLogin

/-- Embedding of `update_state` in `mcbot.py`: the state on disk is loaded,
the updates are overlaid key by key (dict update), and the merged object is
written back wholesale. `st` is the on-disk state that `load_state` returns. -/
def update_state (st : StateObj) (updates : StateObj) : StateObj :=
  updates.foldl (fun acc kv => dictSet acc kv.1 kv.2) st

/-- Outcome of `room_send` as `mcbot.py` distinguishes them: a
`RoomSendResponse`, some other (error) response object, or a raised
exception. -/
inductive SendOutcome where
  | okResponse
  | errorResponse
  | exn
deriving DecidableEq, Repr

def greetingSaved : String := "Hello from McBot!"

def greetingNew : String := "Hello World"

/-- External calls the DM bootstrap utility makes after login, in call
order. -/
inductive DmAction where
  | sendMsg (room_id body : String)
  | createRoom (target : String) (is_direct : Bool) (visibilityPrivate : Bool)
      (roomName : String)
  | persistState (newState : StateObj)
deriving DecidableEq, Repr

/-- The fallback branch of `main` in `mcbot.py`: create a private direct
room with the target user; if creation yields a room id, persist it through
`update_state` and send the message Hello World there; if creation fails,
only the failure is printed. -/
def createPath (st : StateObj) (target_user : String)
    (createResult : Option String) : List DmAction :=
  [.createRoom target_user true true "McBot-DM"] ++
    match createResult with
    | none => []
    | some room_id =>
        [.persistState (update_state st [("dm_room_id", room_id)]),
         .sendMsg room_id greetingNew]

/-- Embedding of the DM flow of `main` in `mcbot.py` after a successful
login: read the saved dm_room_id from state; if present, try to send the
greeting Hello from McBot! there, and only a `RoomSendResponse` counts as
sent; on an error response or an exception, and likewise when no room id is
saved, fall through to `createPath`. `savedSend` is the outcome the platform
gives the send to the saved room. -/
def dm_flow (st : StateObj) (target_user : String) (savedSend : SendOutcome)
    (createResult : Option String) : List DmAction :=
  match dictFind? st "dm_room_id" with
  | some saved =>
      match savedSend with
      | .okResponse => [.sendMsg saved greetingSaved]
      | _ => [.sendMsg saved greetingSaved] ++ createPath st target_user createResult
  | none => createPath st target_user createResult

/-- After `handle_message`, the room entry is the previous history (empty
when the entry was absent) followed by the user message and, on success
only, the assistant reply. -/
theorem handle_message_find (cfg : BotConfig)
    (infer : String → String → List Message → PyOutcome String)
    (hist : HistoryMap) (room_id u : String) (tid : Nat) :
    dictFind? (handle_message cfg infer hist room_id u tid).history room_id
      = some ((dictFind? hist room_id).getD [] ++ userMsg u ::
          assistantSuffix
            (infer cfg.ollama_url cfg.model
              ((dictFind? hist room_id).getD [] ++ [userMsg u]))) := by
  cases h : infer cfg.ollama_url cfg.model
      ((dictFind? hist room_id).getD [] ++ [userMsg u]) <;>
    simp [handle_message, h, assistantSuffix, dictFind?_dictSet_self]

/-- Rooms other than the addressed one are untouched by `handle_message`. -/
theorem handle_message_find_other (cfg : BotConfig)
    (infer : String → String → List Message → PyOutcome String)
    (hist : HistoryMap) (room_id u other : String) (tid : Nat)
    (hne : other ≠ room_id) :
    dictFind? (handle_message cfg infer hist room_id u tid).history other
      = dictFind? hist other := by
  cases h : infer cfg.ollama_url cfg.model
      ((dictFind? hist room_id).getD [] ++ [userMsg u]) <;>
    simp [handle_message, h, dictFind?_dictSet_ne _ _ _ _ hne]

/-- Iterating successful turns appends the user and assistant pair of each
turn, in order, to whatever the room history already holds. -/
theorem runSuccTurns_find (cfg : BotConfig) (room_id : String)
    (turns : List (String × String)) : ∀ hist : HistoryMap,
    (dictFind? (runSuccTurns cfg room_id hist turns) room_id).getD []
      = (dictFind? hist room_id).getD [] ++ turnMsgs turns := by
  induction turns with
  | nil => intro hist; simp [runSuccTurns, turnMsgs]
  | cons p rest ih =>
      intro hist
      obtain ⟨u, r⟩ := p
      simp [runSuccTurns, turnMsgs, ih, handle_message_find, okInfer, assistantSuffix]

/-- C1: for every conversation, after N relay turns whose inference call
succeeds (and with no reset in between), the room history is exactly the
user message followed by the assistant reply of each turn, in call order,
and its length is exactly 2N. -/
theorem relay_history_after_turns (cfg : BotConfig) (room_id : String)
    (hist : HistoryMap) (turns : List (String × String))
    (h : dictFind? hist room_id = none ∨ dictFind? hist room_id = some []) :
    (dictFind? (runSuccTurns cfg room_id hist turns) room_id).getD []
        = turnMsgs turns
    ∧ (turnMsgs turns).length = 2 * turns.length := by
  constructor
  · have hrun := runSuccTurns_find cfg room_id turns hist
    rcases h with h | h <;> simp [h] at hrun <;> exact hrun
  · induction turns with
    | nil => simp [turnMsgs]
    | cons p rest ih =>
        obtain ⟨u, r⟩ := p
        simp [turnMsgs, ih, Nat.mul_succ]

/-- Witness for C1 at two concrete turns in a fresh history map. -/
theorem relay_history_after_turns_witness :
    (dictFind?
        (runSuccTurns (DEFAULT_CONFIG "pw") "!room:hs" []
          [("hi there", "hello"), ("how are you", "fine")]) "!room:hs").getD []
      = [userMsg "hi there", assistantMsg "hello",
         userMsg "how are you", assistantMsg "fine"]
    ∧ ([userMsg "hi there", assistantMsg "hello",
        userMsg "how are you", assistantMsg "fine"] : List Message).length = 2 * 2 := by
  exact relay_history_after_turns (DEFAULT_CONFIG "pw") "!room:hs" []
    [("hi there", "hello"), ("how are you", "fine")] (Or.inl rfl)

/-- Counterexample to C2: a failed inference turn does increase the history.
Starting from an empty history map, a turn whose inference call raises
leaves the room history holding the appended user message, length 1, not
the pre-failure length 0. -/
theorem failed_turn_grows_history :
    dictFind?
        (handle_message (DEFAULT_CONFIG "pw") (failInfer "connection refused")
          [] "!room:hs" "hello" 0).history "!room:hs"
      = some [userMsg "hello"]
    ∧ dictFind?
        (handle_message (DEFAULT_CONFIG "pw") (failInfer "connection refused")
          [] "!room:hs" "hello" 0).history "!room:hs"
      ≠ some [] := by
  exact ⟨rfl, by decide⟩

/-- C2 amended: when the inference call raises, the relay logs the error,
replaces the placeholder with the fixed apology by redact-and-resend, and
appends no assistant message; the user message appended before the call
stays, so the room history equals the pre-failure history plus exactly that
one user message. -/
theorem inference_failure_behavior (cfg : BotConfig)
    (infer : String → String → List Message → PyOutcome String)
    (hist : HistoryMap) (room_id u : String) (tid : Nat) (e : String)
    (hfail : infer cfg.ollama_url cfg.model
        ((dictFind? hist room_id).getD [] ++ [userMsg u]) = .raised e) :
    (handle_message cfg infer hist room_id u tid).effects
      = [.roomSend room_id thinkingBody,
         .logError ("Error calling Ollama: " ++ e),
         .roomRedact room_id tid,
         .roomSend room_id apologyBody]
    ∧ dictFind? (handle_message cfg infer hist room_id u tid).history room_id
      = some ((dictFind? hist room_id).getD [] ++ [userMsg u]) := by
  constructor
  · simp [handle_message, hfail]
  · have hfind := handle_message_find cfg infer hist room_id u tid
    simp [hfail, assistantSuffix] at hfind
    exact hfind

/-- Witness for the amended C2 at a concrete failing turn. -/
theorem inference_failure_behavior_witness :
    (handle_message (DEFAULT_CONFIG "pw") (failInfer "host unreachable")
        [("!room:hs", [userMsg "a", assistantMsg "b"])] "!room:hs" "hello" 7).effects
      = [.roomSend "!room:hs" thinkingBody,
         .logError ("Error calling Ollama: " ++ "host unreachable"),
         .roomRedact "!room:hs" 7,
         .roomSend "!room:hs" apologyBody]
    ∧ dictFind?
        (handle_message (DEFAULT_CONFIG "pw") (failInfer "host unreachable")
          [("!room:hs", [userMsg "a", assistantMsg "b"])] "!room:hs" "hello" 7).history
        "!room:hs"
      = some [userMsg "a", assistantMsg "b", userMsg "hello"] := by
  have h := inference_failure_behavior (DEFAULT_CONFIG "pw")
    (failInfer "host unreachable")
    [("!room:hs", [userMsg "a", assistantMsg "b"])] "!room:hs" "hello" 7
    "host unreachable" rfl
  simpa using h

/-- C3: dispatch on inbound text is case-sensitive literal prefix matching
at the start of the string, first-match-wins over the fixed handler set in
source order, and any text matching no known command prefix, unknown
slash-prefixed text included, is forwarded to the relay with the literal
text (leading slash included) as the user message content. -/
theorem dispatch_prefix_cases (cfg : BotConfig)
    (infer : String → String → List Message → PyOutcome String)
    (bot_user_id : String) (hist : HistoryMap)
    (room_id sender body : String) (tid : Nat)
    (hsender : sender ≠ bot_user_id) :
    (py_startswith body "/start" = true →
      message_callback cfg infer bot_user_id hist room_id sender body tid
        = start hist room_id)
    ∧ (py_startswith body "/start" = false → py_startswith body "/help" = true →
      message_callback cfg infer bot_user_id hist room_id sender body tid
        = help_command hist room_id)
    ∧ (py_startswith body "/start" = false → py_startswith body "/help" = false →
        py_startswith body "/reset" = true →
      message_callback cfg infer bot_user_id hist room_id sender body tid
        = reset_command hist room_id)
    ∧ (py_startswith body "/start" = false → py_startswith body "/help" = false →
        py_startswith body "/reset" = false →
      message_callback cfg infer bot_user_id hist room_id sender body tid
        = handle_message cfg infer hist room_id body tid
      ∧ dictFind?
          (message_callback cfg infer bot_user_id hist room_id sender body tid).history
          room_id
        = some ((dictFind? hist room_id).getD [] ++ userMsg body ::
            assistantSuffix
              (infer cfg.ollama_url cfg.model
                ((dictFind? hist room_id).getD [] ++ [userMsg body])))) := by
  refine ⟨?_, ?_, ?_, ?_⟩ <;> intros <;>
    simp_all [message_callback, handle_message_find]

/-- Witness for C3: an unknown, differently-cased slash command is not a
command (matching is case-sensitive) and is relayed verbatim, slash
included. -/
theorem dispatch_prefix_cases_witness :
    message_callback (DEFAULT_CONFIG "pw") (okInfer "hi") "@bot:hs" []
        "!room:hs" "@alice:hs" "/START now" 0
      = handle_message (DEFAULT_CONFIG "pw") (okInfer "hi") [] "!room:hs"
          "/START now" 0
    ∧ dictFind?
        (message_callback (DEFAULT_CONFIG "pw") (okInfer "hi") "@bot:hs" []
          "!room:hs" "@alice:hs" "/START now" 0).history "!room:hs"
      = some [userMsg "/START now", assistantMsg "hi"] := by
  have h := (dispatch_prefix_cases (DEFAULT_CONFIG "pw") (okInfer "hi")
    "@bot:hs" [] "!room:hs" "@alice:hs" "/START now" 0
    (by decide)).2.2.2 (by decide) (by decide) (by decide)
  simpa [okInfer, assistantSuffix] using h

/-- C4: resetting a conversation clears its history entry to the empty list
when the entry is present, and the history of every other conversation is
exactly unchanged. -/
theorem reset_frame (hist : HistoryMap) (room_id : String) :
    ((dictFind? hist room_id).isSome = true →
      dictFind? (reset_command hist room_id).history room_id = some [])
    ∧ ∀ other : String, other ≠ room_id →
      dictFind? (reset_command hist room_id).history other
        = dictFind? hist other := by
  constructor
  · intro hsome
    cases h : dictFind? hist room_id with
    | none => simp [h] at hsome
    | some l => simp [reset_command, h, dictFind?_dictSet_self]
  · intro other hne
    cases h : dictFind? hist room_id with
    | none => simp [reset_command, h]
    | some l => simp [reset_command, h, dictFind?_dictSet_ne _ _ _ _ hne]

/-- Witness for C4: resetting one room of a two-room history map empties
that room and leaves the other room's messages as they were. -/
theorem reset_frame_witness :
    dictFind?
        (reset_command [("!a:hs", [userMsg "x"]), ("!b:hs", [userMsg "y"])]
          "!a:hs").history "!a:hs"
      = some []
    ∧ dictFind?
        (reset_command [("!a:hs", [userMsg "x"]), ("!b:hs", [userMsg "y"])]
          "!a:hs").history "!b:hs"
      = some [userMsg "y"] := by
  have h := reset_frame [("!a:hs", [userMsg "x"]), ("!b:hs", [userMsg "y"])] "!a:hs"
  exact ⟨h.1 (by decide), (h.2 "!b:hs" (by decide)).trans (by decide)⟩

/-- Counterexample to C5: on a concrete successful relay invocation the
operation trace is exactly placeholder send, redact, reply send; it contains
no typing/working-indicator operation, so the claimed first step does not
happen. -/
theorem no_typing_indicator :
    (handle_message (DEFAULT_CONFIG "pw") (okInfer "hi") [] "!room:hs"
        "hello" 0).effects
      = [.roomSend "!room:hs" thinkingBody,
         .roomRedact "!room:hs" 0,
         .roomSend "!room:hs" "hi"]
    ∧ Effect.roomTyping "!room:hs" ∉
        (handle_message (DEFAULT_CONFIG "pw") (okInfer "hi") [] "!room:hs"
          "hello" 0).effects := by
  exact ⟨rfl, by decide⟩

/-- C5 amended: a relay invocation sends the visible placeholder message
(retaining its event id), ensures a history entry exists and appends the
user message, invokes the inference client with the entire ordered history
and the configured model, and on success appends the assistant reply to
history and replaces the placeholder by redact-and-resend; no separate
typing/working indicator is emitted before the placeholder. -/
theorem relay_step_order (cfg : BotConfig)
    (infer : String → String → List Message → PyOutcome String)
    (hist : HistoryMap) (room_id u : String) (tid : Nat) (reply : String)
    (hok : infer cfg.ollama_url cfg.model
        ((dictFind? hist room_id).getD [] ++ [userMsg u]) = .ok reply) :
    (handle_message cfg infer hist room_id u tid).effects
      = [.roomSend room_id thinkingBody,
         .roomRedact room_id tid,
         .roomSend room_id reply]
    ∧ dictFind? (handle_message cfg infer hist room_id u tid).history room_id
      = some ((dictFind? hist room_id).getD [] ++ [userMsg u, assistantMsg reply])
    ∧ (∀ r : String, Effect.roomTyping r ∉
        (handle_message cfg infer hist room_id u tid).effects) := by
  refine ⟨by simp [handle_message, hok], ?_, ?_⟩
  · have hfind := handle_message_find cfg infer hist room_id u tid
    simp [hok, assistantSuffix] at hfind
    simpa using hfind
  · intro r
    simp [handle_message, hok]

/-- Witness for the amended C5 at a concrete successful turn. -/
theorem relay_step_order_witness :
    (handle_message (DEFAULT_CONFIG "pw") (okInfer "sure") [] "!room:hs"
        "help me" 3).effects
      = [.roomSend "!room:hs" thinkingBody,
         .roomRedact "!room:hs" 3,
         .roomSend "!room:hs" "sure"]
    ∧ dictFind?
        (handle_message (DEFAULT_CONFIG "pw") (okInfer "sure") [] "!room:hs"
          "help me" 3).history "!room:hs"
      = some [userMsg "help me", assistantMsg "sure"] := by
  have h := relay_step_order (DEFAULT_CONFIG "pw") (okInfer "sure") []
    "!room:hs" "help me" 3 "sure" rfl
  exact ⟨h.1, by simpa using h.2.1⟩

/-- C10: an inbound event sent by the bot itself is ignored entirely (no
handler runs, no outbound operation, history map unchanged); `/start` and
`/help` never modify any history; `/reset` never creates a history entry for
a conversation that has none, and it never adds or removes keys, so history
keys grow only through the relay path. -/
theorem non_relay_paths_frame (cfg : BotConfig)
    (infer : String → String → List Message → PyOutcome String)
    (bot_user_id : String) (hist : HistoryMap) (room_id body : String)
    (tid : Nat) :
    message_callback cfg infer bot_user_id hist room_id bot_user_id body tid
      = { history := hist, effects := [] }
    ∧ (start hist room_id).history = hist
    ∧ (help_command hist room_id).history = hist
    ∧ (dictFind? hist room_id = none →
        (reset_command hist room_id).history = hist)
    ∧ (∀ k : String,
        (dictFind? (reset_command hist room_id).history k).isSome
          = (dictFind? hist k).isSome) := by
  refine ⟨by simp [message_callback], rfl, rfl, ?_, ?_⟩
  · intro h
    simp [reset_command, h]
  · intro k
    cases h : dictFind? hist room_id with
    | none => simp [reset_command, h]
    | some l =>
        by_cases hk : k = room_id
        · subst hk
          simp [reset_command, h, dictFind?_dictSet_self]
        · simp [reset_command, h, dictFind?_dictSet_ne _ _ _ _ hk]

/-- Witness for C10: a concrete own-message event changes nothing and emits
nothing, and a reset addressed to an absent room leaves the whole map as it
was. -/
theorem non_relay_paths_frame_witness :
    message_callback (DEFAULT_CONFIG "pw") (okInfer "hi") "@bot:hs"
        [("!a:hs", [userMsg "x"])] "!a:hs" "@bot:hs" "hello" 0
      = { history := [("!a:hs", [userMsg "x"])], effects := [] }
    ∧ (reset_command [("!a:hs", [userMsg "x"])] "!b:hs").history
      = [("!a:hs", [userMsg "x"])] := by
  have h := non_relay_paths_frame (DEFAULT_CONFIG "pw") (okInfer "hi")
    "@bot:hs" [("!a:hs", [userMsg "x"])] "!b:hs" "hello" 0
  exact ⟨h.1, h.2.2.2.1 (by decide)⟩

/-- C6: evaluation of the code at the failing input. When `bot.conf` exists
with malformed content, `load_config` in `main.py` does not fall back to the
INI format and does not keep defaults: because `main.py` never imports
`json`, the call `json.load(f)` raises `NameError`, and the except clause
`except json.JSONDecodeError` re-raises `NameError` while evaluating, so the
function propagates the exception instead of returning a config. The claim
matches the documented intent; the code is missing the import. -/
theorem load_config_raises_on_malformed :
    load_config "envpw" (some "this is not valid json")
      = .raised "NameError: name \x27json\x27 is not defined" := rfl

/-- C7: evaluation of the code at the failing input. A missing `bot.conf`
does yield the built-in default for every field, but an existing empty (or
partially-specified) file makes `load_config` in `main.py` raise `NameError`
instead of returning defaults with per-key overrides, because `json` is
never imported. -/
theorem load_config_missing_vs_empty :
    load_config "envpw" none = .ok (DEFAULT_CONFIG "envpw")
    ∧ load_config "envpw" (some "")
      = .raised "NameError: name \x27json\x27 is not defined" := ⟨rfl, rfl⟩

/-- Counterexample to C8, in the DM bootstrap utility of `mcbot.py`. First
concrete input: a config whose password key holds the empty string; the
utility prints its diagnostic and stops before any login, but by returning
normally, so the process exit status is 0, not non-zero as claimed. Second
concrete input: a config with no password key at all (its `load_config`
applies no defaults); the process dies from an uncaught `KeyError` before
the check, so it exits non-zero but without printing the claimed
diagnostic. -/
theorem mcbot_gate_exit_zero :
    mcbot_main_gate
        [("matrix_homeserver", "https://matrix.org"),
         ("matrix_user_id", "@bot:hs"), ("matrix_password", "")]
      = StartOutcome.earlyExit "Error: Matrix password not found in bot.conf." 0
    ∧ mcbot_main_gate
        [("matrix_homeserver", "https://matrix.org"),
         ("matrix_user_id", "@bot:hs")]
      = StartOutcome.uncaughtKeyError "matrix_password" := by
  exact ⟨by decide, by decide⟩

/-- C8 amended: when the mandatory credential is missing at process start,
both programs stop before any connection to the chat platform, but only the
Matrix bot of `main.py` behaves as claimed: with the password empty or still
the placeholder (its defaults turn an absent password into the empty string)
it prints a diagnostic and exits with the non-zero status 1, and with any
other password it proceeds to login. The DM utility of `mcbot.py` applies no
config defaults, so a config key that is genuinely absent — the password, or
the homeserver when `bot.conf` is missing — raises an uncaught `KeyError`
before the check, ending the process non-zero but without the diagnostic,
while a password that is present but empty or the placeholder prints the
diagnostic and returns normally, exiting with status 0; with all keys
present and any other password it proceeds to login. -/
theorem password_gate_behavior (pw : String) (cfg : StateObj) :
    (pw = "" ∨ pw = placeholderPassword →
      main_password_gate pw
        = StartOutcome.earlyExit
            "Error: Matrix password not found in bot.conf or environment variable." 1)
    ∧ (¬(pw = "" ∨ pw = placeholderPassword) →
      main_password_gate pw = StartOutcome.proceedToLogin)
    ∧ (dictFind? cfg "matrix_homeserver" = none →
      mcbot_main_gate cfg = StartOutcome.uncaughtKeyError "matrix_homeserver")
    ∧ ((dictFind? cfg "matrix_homeserver").isSome = true →
        (dictFind? cfg "matrix_user_id").isSome = true →
        dictFind? cfg "matrix_password" = none →
      mcbot_main_gate cfg = StartOutcome.uncaughtKeyError "matrix_password")
    ∧ ((dictFind? cfg "matrix_homeserver").isSome = true →
        (dictFind? cfg "matrix_user_id").isSome = true →
        dictFind? cfg "matrix_password" = some pw →
      (pw = "" ∨ pw = placeholderPassword →
        mcbot_main_gate cfg
          = StartOutcome.earlyExit "Error: Matrix password not found in bot.conf." 0)
      ∧ (¬(pw = "" ∨ pw = placeholderPassword) →
        mcbot_main_gate cfg = StartOutcome.proceedToLogin)) := by
  refine ⟨?_, ?_, ?_, ?_, ?_⟩
  · intro h
    simp [main_password_gate, h]
  · intro h
    simp [main_password_gate, h]
  · intro h
    simp [mcbot_main_gate, h]
  · intro h1 h2 h3
    rw [Option.isSome_iff_exists] at h1 h2
    obtain ⟨hs, h1⟩ := h1
    obtain ⟨uid, h2⟩ := h2
    simp [mcbot_main_gate, h1, h2, h3]
  · intro h1 h2 h3
    rw [Option.isSome_iff_exists] at h1 h2
    obtain ⟨hs, h1⟩ := h1
    obtain ⟨uid, h2⟩ := h2
    constructor
    · intro h
      simp [mcbot_main_gate, h1, h2, h3, h]
    · intro h
      simp [mcbot_main_gate, h1, h2, h3, h]

/-- Witness for the amended C8: the empty password makes `main.py` exit with
status 1 and, when the key is present in the config of `mcbot.py`, makes the
DM utility exit with status 0; the same config without the password key dies
from the uncaught `KeyError` instead. -/
theorem password_gate_behavior_witness :
    main_password_gate ""
      = StartOutcome.earlyExit
          "Error: Matrix password not found in bot.conf or environment variable." 1
    ∧ mcbot_main_gate
        [("matrix_homeserver", "https://matrix.org"),
         ("matrix_user_id", "@bot:hs"), ("matrix_password", "")]
      = StartOutcome.earlyExit "Error: Matrix password not found in bot.conf." 0
    ∧ mcbot_main_gate
        [("matrix_homeserver", "https://matrix.org"),
         ("matrix_user_id", "@bot:hs")]
      = StartOutcome.uncaughtKeyError "matrix_password" := by
  refine ⟨(password_gate_behavior "" []).1 (Or.inl rfl), ?_, ?_⟩
  · exact ((password_gate_behavior ""
      [("matrix_homeserver", "https://matrix.org"),
       ("matrix_user_id", "@bot:hs"), ("matrix_password", "")]).2.2.2.2
        (by decide) (by decide) (by decide)).1 (Or.inl rfl)
  · exact (password_gate_behavior ""
      [("matrix_homeserver", "https://matrix.org"),
       ("matrix_user_id", "@bot:hs")]).2.2.2.1 (by decide) (by decide) (by decide)

/-- Counterexample to C9: on a concrete run where the send to the saved
direct-message room raises, the utility creates a new room, persists its id,
and then sends the fixed text Hello World to the new room, which is not the
greeting Hello from McBot! that it attempted on the saved room. -/
theorem dm_new_room_message_differs :
    dm_flow [("dm_room_id", "!old:hs")] "@friend:hs" .exn (some "!new:hs")
      = [.sendMsg "!old:hs" greetingSaved,
         .createRoom "@friend:hs" true true "McBot-DM",
         .persistState [("dm_room_id", "!new:hs")],
         .sendMsg "!new:hs" greetingNew]
    ∧ greetingNew ≠ greetingSaved := by
  exact ⟨rfl, by decide⟩

/-- C9 amended: after login the utility reads the saved dm_room_id from
state; when one is present it attempts the greeting Hello from McBot!
there, and on any failure of that send (error response or exception) it
creates a new private direct room with the target user, persists the new
room id by read-merge-write (existing keys preserved, the update overlaid,
the whole object written back) and then sends a message to the new room —
whose fixed text is Hello World, different from the saved-room greeting. -/
theorem dm_fallback_behavior (st : StateObj)
    (target oldRoom newRoom : String) (outcome : SendOutcome)
    (hsaved : dictFind? st "dm_room_id" = some oldRoom)
    (hfail : outcome ≠ SendOutcome.okResponse) :
    dm_flow st target outcome (some newRoom)
      = [.sendMsg oldRoom greetingSaved,
         .createRoom target true true "McBot-DM",
         .persistState (update_state st [("dm_room_id", newRoom)]),
         .sendMsg newRoom greetingNew]
    ∧ dictFind? (update_state st [("dm_room_id", newRoom)]) "dm_room_id"
      = some newRoom
    ∧ (∀ k : String, k ≠ "dm_room_id" →
        dictFind? (update_state st [("dm_room_id", newRoom)]) k
          = dictFind? st k) := by
  refine ⟨?_, ?_, ?_⟩
  · cases outcome with
    | okResponse => exact absurd rfl hfail
    | errorResponse => simp [dm_flow, hsaved, createPath]
    | exn => simp [dm_flow, hsaved, createPath]
  · simp [update_state, dictFind?_dictSet_self]
  · intro k hk
    simp [update_state, dictFind?_dictSet_ne _ _ _ _ hk]

/-- Witness for the amended C9: a concrete state with an extra key, a
failing saved-room send and a successful room creation; the extra key
survives the read-merge-write. -/
theorem dm_fallback_behavior_witness :
    dm_flow [("other_key", "kept"), ("dm_room_id", "!old:hs")] "@friend:hs"
        .errorResponse (some "!new:hs")
      = [.sendMsg "!old:hs" greetingSaved,
         .createRoom "@friend:hs" true true "McBot-DM",
         .persistState [("other_key", "kept"), ("dm_room_id", "!new:hs")],
         .sendMsg "!new:hs" greetingNew]
    ∧ dictFind?
        (update_state [("other_key", "kept"), ("dm_room_id", "!old:hs")]
          [("dm_room_id", "!new:hs")]) "other_key"
      = some "kept" := by
  have h := dm_fallback_behavior
    [("other_key", "kept"), ("dm_room_id", "!old:hs")]
    "@friend:hs" "!old:hs" "!new:hs" .errorResponse (by decide) (by decide)
  exact ⟨by simpa using h.1, (h.2.2 "other_key" (by decide)).trans (by decide)⟩
